import Mathlib

/-!
Verification development for the Channels DVR pass finder
(cdvr_find_pass.py, version 2023.08.12.2305).

The script queries a Channels DVR server over HTTP and determines which
recording rule (pass) triggered each program matching a title and optional
season and episode number.  This file gives a shallow embedding of the
data model and of the pure logic of the script, with the network modelled
as explicit inputs:

- the jobs response and the files response are lists of JSON records
  (`ProgramJson`), given as parameters;
- the rules mapping built by `get_passes` is a function
  `String -> Option String` from rule id to pass name (a finite dict in
  the source; only lookups are performed on it);
- the per-file media-info lookup performed inside the `Program`
  constructor is a function `String -> String` from file id to file name;
- the local-timezone conversion done by `dateutil` is modelled by an
  explicit UTC-offset (in minutes) and timezone-name parameter, and,
  where only its output string matters, by an oracle
  `String -> String`.

Python truthiness is modelled explicitly (`truthyOptInt`,
`truthyOptStr`, `truthyOptList`): `None`, `0`, an empty string and an
empty list are falsy.  Python string containment `a in b` is the
substring test `strContains`.
-/

/-- Contiguous-sublist test on character lists, used to model Python
substring containment. -/
def containsSub (needle : List Char) : List Char → Bool
  | [] => needle.isEmpty
  | c :: cs => needle.isPrefixOf (c :: cs) || containsSub needle cs

/-- Python substring containment: `needle in haystack` on strings. -/
def strContains (needle haystack : String) : Bool :=
  containsSub needle.data haystack.data

/-- Truthiness of an optional integer: `None` and `0` are falsy. -/
def truthyOptInt : Option Int → Bool
  | none => false
  | some n => n != 0

/-- Truthiness of an optional string: `None` and the empty string are falsy. -/
def truthyOptStr : Option String → Bool
  | none => false
  | some s => s != ""

/-- Truthiness of an optional list: `None` and the empty list are falsy. -/
def truthyOptList {α : Type} : Option (List α) → Bool
  | none => false
  | some l => !l.isEmpty

/-- The data found under `Airing.Raw` when present; the source reads its
`startTime` field (directly in the manual branch, with `.get` in the
rule branch). -/
structure RawJson where
  startTime : Option String
  deriving DecidableEq

/-- The `Airing` block of a program record.  The source reads `Title`
unconditionally (`program['Airing']['Title']`) and the other fields with
`.get`, so `Title` is required and the rest are optional. -/
structure AiringJson where
  Title : String
  SeasonNumber : Option Int
  EpisodeNumber : Option Int
  Categories : Option (List String)
  Raw : Option RawJson
  deriving DecidableEq

/-- One JSON record as returned by the server in the jobs list or the
files list.  `ID` and `Airing` are read unconditionally by the source;
`FileID`, `RuleID`, `JobID` and `ImportPath` are accessed with `.get`
or a key-membership test, so presence is modelled with `Option`.
`Skipped` is read unconditionally on jobs records
(`recording['Skipped']`); for files records the field is unused and can
hold any value. -/
structure ProgramJson where
  ID : String
  Airing : AiringJson
  FileID : Option String
  RuleID : Option String
  JobID : Option String
  ImportPath : Option String
  Skipped : Bool
  deriving DecidableEq

/-- Method `Program._get_category` (lines 63-71): the first entry of
`Airing.Categories` when that list is present and nonempty (Python
truthiness), else the literal `Program`. -/
def get_category (j : ProgramJson) : String :=
  match j.Airing.Categories with
  | some (c :: _) => c
  | _ => "Program"

/-- Method `Program._get_file_name` (lines 73-88) with the media-info
HTTP lookup abstracted as `mediainfo : String -> String` (the value of
`media_info['format']['filename']` for a given file id).  The result
stays `None` unless `FileID` is falsy and the `ID` contains no dash, in
which case the lookup result is returned. -/
def get_file_name (mediainfo : String → String) (j : ProgramJson) : Option String :=
  if truthyOptStr j.FileID then
    none
  else
    if strContains "-" j.ID then
      none
    else
      some (mediainfo j.ID)

/-- The condition under which `Program._get_file_name` performs the
secondary media-info lookup: no truthy `FileID` and no dash in the
record id. -/
def performs_lookup (j : ProgramJson) : Bool :=
  !truthyOptStr j.FileID && !strContains "-" j.ID

/-- The `Program` object built in `Program.__init__` (lines 53-61). -/
structure Program where
  program : ProgramJson
  category : String
  episode_number : Option Int
  file_name : Option String
  pass_id : Option String
  season_number : Option Int
  title : String
  deriving DecidableEq

/-- Constructor `Program.__init__` (lines 53-61), with the media-info
lookup of `_get_file_name` abstracted as `mediainfo`. -/
def mkProgram (mediainfo : String → String) (j : ProgramJson) : Program :=
  { program := j
    category := get_category j
    episode_number := j.Airing.EpisodeNumber
    file_name := get_file_name mediainfo j
    pass_id := j.RuleID
    season_number := j.Airing.SeasonNumber
    title := j.Airing.Title }

/-- Method `Program.is_imported` (lines 90-92): the record carries the
key `ImportPath`. -/
def Program.is_imported (pr : Program) : Bool :=
  pr.program.ImportPath.isSome

/-- Method `Program.is_manual_recording` (lines 94-104) on the raw
record: the marker `-ch` occurs in `ID`, or else, when a truthy `JobID`
is present, in `JobID`. -/
def ProgramJson.is_manual_recording (j : ProgramJson) : Bool :=
  let scheduled_manually := strContains "-ch" j.ID
  if !scheduled_manually then
    if truthyOptStr j.JobID then
      strContains "-ch" (j.JobID.getD "")
    else
      scheduled_manually
  else
    scheduled_manually

/-- Method `Program.is_manual_recording` lifted to the constructed
object (it only reads `self.program`). -/
def Program.is_manual_recording (pr : Program) : Bool :=
  pr.program.is_manual_recording

/-- Function `get_raw_data` (lines 297-305): the data under
`Airing/Raw` when available.  The defensive `.get` on `Airing` in the
source cannot fail here because every constructed `Program` has an
`Airing` block. -/
def get_raw_data (pr : Program) : Option RawJson :=
  pr.program.Airing.Raw

/-- The per-iteration matching test of `update_program_list`
(lines 201-215), written as the value of the `is_a_match` flag at the
end of one loop iteration: a case-sensitive substring test on the
title; then, when the season filter is truthy, the record must have a
truthy season number equal to it; then, when the episode filter is also
truthy, a truthy episode number equal to it. -/
def isMatch (title : String) (season_number episode_number : Option Int)
    (program : ProgramJson) : Bool :=
  if strContains title program.Airing.Title then
    if truthyOptInt season_number then
      if truthyOptInt program.Airing.SeasonNumber &&
          (season_number == program.Airing.SeasonNumber) then
        if truthyOptInt episode_number then
          truthyOptInt program.Airing.EpisodeNumber &&
            (episode_number == program.Airing.EpisodeNumber)
        else
          true
      else
        false
    else
      true
  else
    false

/-- The matching-result dictionary built by the script: Python dict
from the key (the literal scheduled or library) to the list of matched
`Program` objects, modelled as an insertion-ordered association list. -/
abbrev MatchDict := List (String × List Program)

/-- Python dict assignment `d[k] = v`: replace the value of an existing
key in place, else append the new key at the end (insertion order). -/
def dictSet : MatchDict → String → List Program → MatchDict
  | [], k, v => [(k, v)]
  | (k1, v1) :: rest, k, v =>
      if k1 = k then (k, v) :: rest else (k1, v1) :: dictSet rest k v

/-- Python `d.get(k, None)`. -/
def dictGetOpt : MatchDict → String → Option (List Program)
  | [], _ => none
  | (k1, v1) :: rest, k => if k1 = k then some v1 else dictGetOpt rest k

/-- Python `d.get(k, dflt)`. -/
def dictGetD (d : MatchDict) (k : String) (dflt : List Program) : List Program :=
  (dictGetOpt d k).getD dflt

/-- Function `update_program_list` (lines 193-222): walk the given
records, and append `Program(record)` to the list stored under `key`
for each record that matches the criteria. -/
def update_program_list (mediainfo : String → String) :
    MatchDict → String → List ProgramJson → String → Option Int → Option Int → MatchDict
  | mp, _, [], _, _, _ => mp
  | mp, key, program :: rest, title, sn, en =>
      let mp1 :=
        if isMatch title sn en program then
          dictSet mp key (dictGetD mp key [] ++ [mkProgram mediainfo program])
        else
          mp
      update_program_list mediainfo mp1 key rest title sn en

/-- Function `get_scheduled_recordings` (lines 180-187): the jobs
response with the records marked `Skipped` removed. -/
def get_scheduled_recordings (jobs : List ProgramJson) : List ProgramJson :=
  jobs.filter (fun recording => !recording.Skipped)

/-- Function `get_library_programs` (lines 158-162): the files response
unchanged (the list comprehension is the identity). -/
def get_library_programs (files : List ProgramJson) : List ProgramJson :=
  files

/-- Function `get_matching_programs` (lines 141-156): filter the
scheduled recordings, then the library files, into the result
dictionary under the keys scheduled and library. -/
def get_matching_programs (mediainfo : String → String)
    (jobs files : List ProgramJson) (title : String) (sn en : Option Int) : MatchDict :=
  let matching_programs : MatchDict := []
  let mp1 := update_program_list mediainfo matching_programs "scheduled"
    (get_scheduled_recordings jobs) title sn en
  update_program_list mediainfo mp1 "library" (get_library_programs files) title sn en

/-- Python `str(x)` applied to the optional file name when it is
interpolated into an f-string: `None` prints as the text `None`. -/
def fileNameStr : Option String → String
  | none => "None"
  | some s => s

/-- Python `passes.get(pass_id, None)` in `display_passes` (line 276):
looking up a missing id, or a `None` id, yields `None`. -/
def lookup_pass (passes : String → Option String) : Option String → Option String
  | none => none
  | some rid => passes rid

/-- Lines 276-279 of `display_passes`: the pass name printed for a
rule-triggered program.  A falsy lookup result (absent id, id not in
the mapping, or an empty mapped name) is replaced by the placeholder. -/
def rendered_pass_name (passes : String → Option String) (pass_id : Option String) : String :=
  let pass_name := lookup_pass passes pass_id
  if truthyOptStr pass_name then pass_name.getD "" else "nothing found!"

/-- Lines 252-259 of `display_passes`: the leading part of the printed
line, with the season and episode suffix added only for series-like
categories and only for truthy season and episode numbers. -/
def program_header (pr : Program) : String :=
  let base := " - " ++ pr.category ++ " \"" ++ pr.title ++ "\" "
  if pr.category = "Episode" || pr.category = "Show" || pr.category = "Series" then
    let s1 :=
      if truthyOptInt pr.season_number then
        "S" ++ toString ((pr.season_number).getD 0)
      else
        ""
    let s2 :=
      if truthyOptInt pr.episode_number then
        "E" ++ toString ((pr.episode_number).getD 0) ++ " "
      else
        ""
    base ++ s1 ++ s2
  else
    base

/-- Line 264-265: the text appended for an imported program (note that
an absent file name prints as `None`, as in Python). -/
def import_text (pr : Program) : String :=
  "is an import:\n" ++ "    \"" ++ fileNameStr pr.file_name ++ "\"\n"

/-- Line 267: the marker appended for a manually scheduled program. -/
def manual_marker : String :=
  "is a manual recording.\n"

/-- Lines 268-274: the rest of the manual-recording branch.  With no
truthy file name and raw data present, the source indexes
`raw['startTime']` directly, which raises `KeyError` when the key is
absent; that error path is the `none` result. -/
def manual_tail (localTime : String → String) (pr : Program) : Option String :=
  if truthyOptStr pr.file_name then
    some ("    \"" ++ fileNameStr pr.file_name ++ "\"\n")
  else
    match get_raw_data pr with
    | none => some ""
    | some raw =>
        match raw.startTime with
        | none => none
        | some st => some ("   will be recorded on " ++ localTime st ++ "\n")

/-- Line 281: the line appended for a rule-triggered program. -/
def rule_marker (passes : String → Option String) (pr : Program) : String :=
  "triggered by pass: \"" ++ rendered_pass_name passes pr.pass_id ++ "\"\n"

/-- Lines 283-293: the rest of the rule-triggered branch; here the
source reads `startTime` with `.get` and tests it for truthiness, so
no error is possible. -/
def rule_tail (localTime : String → String) (pr : Program) : String :=
  if truthyOptStr pr.file_name then
    "    \"" ++ fileNameStr pr.file_name ++ "\"\n"
  else
    match get_raw_data pr with
    | none => ""
    | some raw =>
        if truthyOptStr raw.startTime then
          "   will be recorded on " ++ localTime (raw.startTime.getD "") ++ "\n"
        else
          ""

/-- The body of the `for` loop of `display_passes` (lines 250-295) for
one program: the final value of `string_to_print`.  The conversion
`convert_utc_time_to_local_time` under the local timezone of the
machine is abstracted as `localTime`.  The `none` result is the
`KeyError` path of the manual branch. -/
def display_one_program (passes : String → Option String) (localTime : String → String)
    (pr : Program) : Option String :=
  if pr.is_imported then
    some (program_header pr ++ import_text pr)
  else
    if pr.is_manual_recording then
      (manual_tail localTime pr).map (fun tail => program_header pr ++ (manual_marker ++ tail))
    else
      some (program_header pr ++ (rule_marker passes pr ++ rule_tail localTime pr))

/-- Function `display_passes` (lines 245-295): print the line of every
program (each `print` appends a newline). -/
def display_passes (passes : String → Option String) (localTime : String → String) :
    List Program → Option String
  | [] => some ""
  | pr :: rest => do
      let line ← display_one_program passes localTime pr
      let out ← display_passes passes localTime rest
      return line ++ "\n" ++ out

/-- The gate of the Scheduled recordings section (lines 226, 229):
`programs.get('scheduled', None)` must be truthy. -/
def renders_scheduled_section (programs : MatchDict) : Bool :=
  truthyOptList (dictGetOpt programs "scheduled")

/-- The gate of the Library programs section (lines 227, 237):
`programs.get('library', None)` must be truthy. -/
def renders_library_section (programs : MatchDict) : Bool :=
  truthyOptList (dictGetOpt programs "library")

/-- Function `show_passes_for_every_program` (lines 224-243): the text
printed for the whole report, one section per collection, each
rendered only when its entry is truthy. -/
def show_passes_for_every_program (passes : String → Option String)
    (localTime : String → String) (programs : MatchDict) : Option String := do
  let scheduled_recordings := dictGetOpt programs "scheduled"
  let library_programs := dictGetOpt programs "library"
  let s1 ←
    if renders_scheduled_section programs then
      (display_passes passes localTime (scheduled_recordings.getD [])).map
        (fun body =>
          "|----------------------|\n| Scheduled recordings |\n|----------------------|\n\n"
            ++ body ++ "\n")
    else
      some ""
  let s2 ←
    if renders_library_section programs then
      (display_passes passes localTime (library_programs.getD [])).map
        (fun body =>
          "|-------------------|\n| Library programs  |\n|-------------------|\n\n"
            ++ body ++ "\n")
    else
      some ""
  return s1 ++ s2

/-- The tail of the main block (lines 354-361): compute the matches,
print `no matches found.` plus a blank line when the dictionary is
falsy (empty), then print the report.  The result is the text printed
after the `Looking for matches` banner; `none` is the uncaught
`KeyError` path inside `display_passes`. -/
def main_report (passes : String → Option String) (mediainfo : String → String)
    (localTime : String → String) (jobs files : List ProgramJson)
    (title : String) (sn en : Option Int) : Option String :=
  let programs := get_matching_programs mediainfo jobs files title sn en
  (show_passes_for_every_program passes localTime programs).map
    (fun body => (if programs.isEmpty then "no matches found.\n\n" else "") ++ body)

/-- The numeric value of a decimal digit character, `none` otherwise. -/
def digitVal (c : Char) : Option Nat :=
  if c.isDigit then some (c.toNat - 48) else none

/-- Parse exactly `n` decimal digits (most significant first) starting
from the given accumulator, returning the value and the rest of the
input. -/
def parseFixedDigits : Nat → Nat → List Char → Option (Nat × List Char)
  | 0, acc, cs => some (acc, cs)
  | _ + 1, _, [] => none
  | n + 1, acc, c :: cs =>
      match digitVal c with
      | some d => parseFixedDigits n (acc * 10 + d) cs
      | none => none

/-- Parse one or two decimal digits, greedily. -/
def parseUpTo2 : List Char → Option (Nat × List Char)
  | [] => none
  | c :: cs =>
      match digitVal c with
      | none => none
      | some d =>
          match cs with
          | [] => some (d, [])
          | c2 :: cs2 =>
              match digitVal c2 with
              | some d2 => some (d * 10 + d2, cs2)
              | none => some (d, cs)

/-- Expect one given literal character. -/
def expectChar (ch : Char) : List Char → Option (List Char)
  | [] => none
  | c :: cs => if c = ch then some cs else none

/-- A parsed wall-clock UTC timestamp. -/
structure UTCTime where
  year : Nat
  month : Nat
  day : Nat
  hour : Nat
  minute : Nat
  deriving DecidableEq

/-- Gregorian leap-year rule. -/
def isLeapYear (y : Nat) : Bool :=
  (y % 4 = 0 && y % 100 ≠ 0) || y % 400 = 0

/-- Length of a month in the Gregorian calendar. -/
def daysInMonth (y m : Nat) : Nat :=
  if m = 2 then
    if isLeapYear y then 29 else 28
  else
    if m = 4 || m = 6 || m = 9 || m = 11 then 30 else 31

/-- The parsing half of `convert_utc_time_to_local_time` (line 122):
`datetime.strptime(utc_time, "%Y-%m-%dT%H:%MZ")`.  Four digits of
year, one or two digits for month, day, hour and minute, the literal
separators, and the range checks that `strptime` and the `datetime`
constructor perform; any failure raises in Python, which is the `none`
result here. -/
def strptime_utc (s : String) : Option UTCTime := do
  let cs := s.data
  let (y, cs) ← parseFixedDigits 4 0 cs
  let cs ← expectChar '-' cs
  let (m, cs) ← parseUpTo2 cs
  let cs ← expectChar '-' cs
  let (d, cs) ← parseUpTo2 cs
  let cs ← expectChar 'T' cs
  let (h, cs) ← parseUpTo2 cs
  let cs ← expectChar ':' cs
  let (mi, cs) ← parseUpTo2 cs
  let cs ← expectChar 'Z' cs
  if cs = [] && 1 ≤ m && m ≤ 12 && 1 ≤ d && d ≤ daysInMonth y m && h < 24 && mi < 60 then
    some ⟨y, m, d, h, mi⟩
  else
    none

/-- Days since 1970-01-01 of a Gregorian date (floor-division form of
the standard civil-from-days correspondence). -/
def daysFromCivil (y m d : Int) : Int :=
  let y1 := if m ≤ 2 then y - 1 else y
  let era := y1 / 400
  let yoe := y1 - era * 400
  let mp := if 2 < m then m - 3 else m + 9
  let doy := (153 * mp + 2) / 5 + d - 1
  let doe := yoe * 365 + yoe / 4 - yoe / 100 + doy
  era * 146097 + doe - 719468

/-- A Gregorian civil date. -/
structure CivilDate where
  year : Int
  month : Int
  day : Int
  deriving DecidableEq

/-- Gregorian date of a day count since 1970-01-01 (inverse of
`daysFromCivil`). -/
def civilFromDays (z0 : Int) : CivilDate :=
  let z := z0 + 719468
  let era := z / 146097
  let doe := z - era * 146097
  let yoe := (doe - doe / 1460 + doe / 36524 - doe / 146096) / 365
  let y := yoe + era * 400
  let doy := doe - (365 * yoe + yoe / 4 - yoe / 100)
  let mp := (5 * doy + 2) / 153
  let d := doy - (153 * mp + 2) / 5 + 1
  let m := if mp < 10 then mp + 3 else mp - 9
  { year := if m ≤ 2 then y + 1 else y, month := m, day := d }

/-- Weekday names as produced by `strftime` directive `%A`, indexed
with 0 for Sunday. -/
def dayName : Nat → String
  | 0 => "Sunday"
  | 1 => "Monday"
  | 2 => "Tuesday"
  | 3 => "Wednesday"
  | 4 => "Thursday"
  | 5 => "Friday"
  | 6 => "Saturday"
  | _ => ""

/-- Month names as produced by `strftime` directive `%B`. -/
def monthName : Int → String
  | 1 => "January"
  | 2 => "February"
  | 3 => "March"
  | 4 => "April"
  | 5 => "May"
  | 6 => "June"
  | 7 => "July"
  | 8 => "August"
  | 9 => "September"
  | 10 => "October"
  | 11 => "November"
  | 12 => "December"
  | _ => ""

/-- Two-digit zero padding, as in the `%d`, `%I` and `%M` directives. -/
def pad2 (n : Nat) : String :=
  if n < 10 then "0" ++ toString n else toString n

/-- The time-of-day part `%I:%M:%S %p` of the output format for a
minute count within the day: 12-hour clock with hour 0 printed as 12,
seconds always 00 (the parsed time has none), AM before noon. -/
def time_of_day_string (tod : Nat) : String :=
  let h := tod / 60
  let h12 := if h % 12 = 0 then 12 else h % 12
  pad2 h12 ++ ":" ++ pad2 (tod % 60) ++ ":00 " ++ (if h < 12 then "AM" else "PM")

/-- The formatting half of `convert_utc_time_to_local_time`
(line 131): `strftime('%A, %B %d, %Y %I:%M:%S %p %Z')` for a civil
date, a weekday index, a minute of the day, and the timezone name that
`%Z` prints. -/
def strftime_long (date : CivilDate) (wd : Nat) (tod : Nat) (tzName : String) : String :=
  dayName wd ++ ", " ++ monthName date.month ++ " " ++ pad2 date.day.toNat ++ ", " ++
    toString date.year ++ " " ++ time_of_day_string tod ++ " " ++ tzName

/-- Minutes since 1970-01-01T00:00Z of a parsed UTC timestamp. -/
def utcTotalMinutes (t : UTCTime) : Int :=
  daysFromCivil (Int.ofNat t.year) (Int.ofNat t.month) (Int.ofNat t.day) * 1440 +
    Int.ofNat (t.hour * 60 + t.minute)

/-- The arithmetic of `astimezone(tz.tzlocal())` followed by
`strftime` (lines 125-131), for a local timezone whose UTC offset at
the given instant is `ofs` minutes and whose displayed name is
`tzName`: shift the instant by the offset and render the resulting
local civil date, weekday and time of day. -/
def local_render (t : UTCTime) (ofs : Int) (tzName : String) : String :=
  let localMinutes := utcTotalMinutes t + ofs
  let localDay := localMinutes / 1440
  strftime_long (civilFromDays localDay) (((localDay + 4) % 7).toNat)
    ((localMinutes % 1440).toNat) tzName

/-- Function `convert_utc_time_to_local_time` (lines 112-133), with
the local timezone of the machine made explicit as the pair of its UTC
offset in minutes at the converted instant and its displayed name.
Parse failures (exceptions in Python) are `none`. -/
def convert_utc_time_to_local_time (utc_time : String) (ofs : Int) (tzName : String) :
    Option String :=
  (strptime_utc utc_time).map (fun t => local_render t ofs tzName)


/-- Modelled from the claim wording of C1 (not from the source): the
record matches iff the title substring occurs in its title
(case-sensitive), and, when a season number is given, the record
carries a season number equal to it, and, when an episode number is
also given, an episode number equal to it.  To be compared with
`isMatch`. -/
def claimedMatch (title : String) (sn en : Option Int) (j : ProgramJson) : Bool :=
  strContains title j.Airing.Title &&
  (match sn with
   | none => true
   | some s => j.Airing.SeasonNumber == some s) &&
  (match sn, en with
   | some _, some e => j.Airing.EpisodeNumber == some e
   | _, _ => true)

/-- Modelled from the claim wording of C5 (not from the source): a file
name is already present in the record exactly when the `FileID` field
is present, so the claim asks for the media-info lookup exactly when
`FileID` is absent.  To be compared with `performs_lookup` and
`get_file_name`. -/
def claimed_lookup_needed (j : ProgramJson) : Bool :=
  !j.FileID.isSome

/-- Concrete record for the C1 counterexample: title matches, season 5. -/
def cexJson1 : ProgramJson :=
  ⟨"10", ⟨"A", some 5, none, none, none⟩, none, none, none, none, false⟩

/-- Concrete record for the C1 witness: an episode with season 2,
episode 3. -/
def wJson1 : ProgramJson :=
  ⟨"20", ⟨"Friends", some 2, some 3, some ["Episode"], none⟩, none, some "r1", none, none, false⟩

/-- Media-info oracle for the C2 samples. -/
def mi2 : String → String := fun i => "recording-" ++ i ++ ".mpg"

/-- Local-time oracle for the C2 samples. -/
def lt2 : String → String := fun s => "LOCAL(" ++ s ++ ")"

/-- Rules mapping for the C2 samples. -/
def passesA2 : String → Option String := fun rid => if rid = "r9" then some "My Pass" else none

/-- An alternative rules mapping, used to show that imported and manual
programs are classified without consulting the rules. -/
def passesB2 : String → Option String := fun _ => none

/-- An imported record (carries `ImportPath`, and also a rule id). -/
def jsonImp2 : ProgramJson :=
  ⟨"12", ⟨"Movie Night", none, none, some ["Movie"], none⟩, none, some "r9", none,
    some "/imports/movie.mpg", false⟩

/-- A manually scheduled record (the id carries the `-ch` marker). -/
def jsonMan2 : ProgramJson :=
  ⟨"1687616400-ch6020", ⟨"Local News", none, none, none, some ⟨some "2023-06-24T15:00Z"⟩⟩,
    none, none, none, none, false⟩

/-- A rule-triggered record. -/
def jsonRule2 : ProgramJson :=
  ⟨"77", ⟨"Friends", some 2, some 3, some ["Episode"], none⟩, none, some "r9", none, none, false⟩

/-- The C2 sample programs as constructed by `Program.__init__`. -/
def prImp2 : Program := mkProgram mi2 jsonImp2

/-- The manually scheduled C2 sample program. -/
def prMan2 : Program := mkProgram mi2 jsonMan2

/-- The rule-triggered C2 sample program. -/
def prRule2 : Program := mkProgram mi2 jsonRule2

/-- Rules mapping for the C3 counterexample: the id maps to an empty
pass name. -/
def passes3 : String → Option String := fun rid => if rid = "r1" then some "" else none

/-- Rules mapping for the C3 witness. -/
def passesW3 : String → Option String :=
  fun rid => if rid = "ra" then some "Kids Pass" else if rid = "rb" then some "" else none

/-- Media-info oracle for the C3 samples. -/
def mi3 : String → String := fun i => "file-" ++ i ++ ".mpg"

/-- Local-time oracle for the C3 samples. -/
def lt3 : String → String := fun s => s

/-- A rule-triggered record whose rule id maps to the empty name. -/
def jsonRule3 : ProgramJson :=
  ⟨"9", ⟨"Some Show", none, none, none, none⟩, none, some "r1", none, none, false⟩

/-- The C3 sample program. -/
def prRule3 : Program := mkProgram mi3 jsonRule3

/-- Oracles and data for the C4 witness. -/
def mi4 : String → String := fun i => "f-" ++ i

/-- Rules mapping for the C4 witness. -/
def passes4 : String → Option String := fun _ => none

/-- Local-time oracle for the C4 witness. -/
def lt4 : String → String := fun s => s

/-- A jobs response with one unskipped job that does not match. -/
def jobs4 : List ProgramJson :=
  [⟨"5-ch1", ⟨"News", none, none, none, none⟩, none, none, none, none, false⟩]

/-- A files response with one file that does not match. -/
def files4 : List ProgramJson :=
  [⟨"6", ⟨"Weather", none, none, none, none⟩, none, none, none, none, false⟩]

/-- Media-info oracle for the C5 samples. -/
def o5 : String → String := fun i => "resolved-" ++ i

/-- A record with no `FileID` whose id carries a dash (a scheduled
item): the C5 counterexample. -/
def jsonDash5 : ProgramJson :=
  ⟨"1687616400-ch6020", ⟨"Job", none, none, none, none⟩, none, none, none, none, false⟩

/-- A library-style record: no `FileID`, plain numeric id. -/
def jsonLib5 : ProgramJson :=
  ⟨"741", ⟨"Movie", none, none, none, none⟩, none, none, none, none, false⟩

/-- A record that carries a `FileID`. -/
def jsonFid5 : ProgramJson :=
  ⟨"742", ⟨"Movie", none, none, none, none⟩, some "88", none, none, none, false⟩

/-- Media-info oracle for the C9 samples. -/
def mi9 : String → String := fun i => "f" ++ i

/-- A skipped job. -/
def jskip9 : ProgramJson :=
  ⟨"4", ⟨"News Morning", none, none, none, none⟩, none, some "r1", none, none, true⟩

/-- An unskipped matching job. -/
def jok9 : ProgramJson :=
  ⟨"3", ⟨"News Tonight", none, none, none, none⟩, none, some "r1", none, none, false⟩

/-- The jobs response for the C9 witness. -/
def jobs9 : List ProgramJson := [jskip9, jok9]

/-! Helper lemmas about the dictionary and the matching fold. -/

theorem dictGetOpt_dictSet_self (d : MatchDict) (k : String) (v : List Program) :
    dictGetOpt (dictSet d k v) k = some v := by
  induction d with
  | nil => simp [dictSet, dictGetOpt]
  | cons kv rest ih =>
      obtain ⟨k1, v1⟩ := kv
      by_cases h : k1 = k
      · simp [dictSet, dictGetOpt, h]
      · simp [dictSet, dictGetOpt, h, ih]

theorem dictGetOpt_dictSet_other (d : MatchDict) (k k2 : String) (v : List Program)
    (h : k2 ≠ k) : dictGetOpt (dictSet d k v) k2 = dictGetOpt d k2 := by
  have hne : ¬ k = k2 := fun hh => h hh.symm
  induction d with
  | nil => simp [dictSet, dictGetOpt, hne]
  | cons kv rest ih =>
      obtain ⟨k1, v1⟩ := kv
      by_cases h1 : k1 = k
      · subst h1
        simp [dictSet, dictGetOpt, hne]
      · simp [dictSet, dictGetOpt, h1, ih]

theorem update_getOpt_other (mi : String → String) (mp : MatchDict) (key : String)
    (ps : List ProgramJson) (title : String) (sn en : Option Int) (k2 : String)
    (h : k2 ≠ key) :
    dictGetOpt (update_program_list mi mp key ps title sn en) k2 = dictGetOpt mp k2 := by
  induction ps generalizing mp with
  | nil => rfl
  | cons p rest ih =>
      by_cases hm : isMatch title sn en p
      · simp only [update_program_list, hm, if_true]
        rw [ih, dictGetOpt_dictSet_other _ _ _ _ h]
      · simp only [update_program_list, hm, if_false]
        exact ih mp

theorem update_getD_self (mi : String → String) (mp : MatchDict) (key : String)
    (ps : List ProgramJson) (title : String) (sn en : Option Int) :
    dictGetD (update_program_list mi mp key ps title sn en) key [] =
      dictGetD mp key [] ++ (ps.filter (fun p => isMatch title sn en p)).map (mkProgram mi) := by
  induction ps generalizing mp with
  | nil => simp [update_program_list]
  | cons p rest ih =>
      by_cases hm : isMatch title sn en p
      · simp only [update_program_list, hm, if_true]
        rw [ih]
        have hset : dictGetD (dictSet mp key (dictGetD mp key [] ++ [mkProgram mi p])) key [] =
            dictGetD mp key [] ++ [mkProgram mi p] := by
          unfold dictGetD
          rw [dictGetOpt_dictSet_self]
          rfl
        rw [hset, List.filter_cons_of_pos hm, List.map_cons, List.append_assoc]
        rfl
      · rw [Bool.not_eq_true] at hm
        simp only [update_program_list, hm, Bool.false_eq_true, if_false]
        rw [ih, List.filter_cons_of_neg (by simp [hm])]

theorem update_isSome_self (mi : String → String) (mp : MatchDict) (key : String)
    (ps : List ProgramJson) (title : String) (sn en : Option Int) :
    (dictGetOpt (update_program_list mi mp key ps title sn en) key).isSome =
      ((dictGetOpt mp key).isSome || ps.any (fun p => isMatch title sn en p)) := by
  induction ps generalizing mp with
  | nil => simp [update_program_list]
  | cons p rest ih =>
      by_cases hm : isMatch title sn en p
      · simp only [update_program_list, hm, if_true]
        rw [ih, dictGetOpt_dictSet_self]
        simp [hm]
      · simp only [update_program_list, hm, if_false]
        rw [ih]
        simp [hm]

theorem update_no_match (mi : String → String) (mp : MatchDict) (key : String)
    (ps : List ProgramJson) (title : String) (sn en : Option Int)
    (h : ∀ p ∈ ps, isMatch title sn en p = false) :
    update_program_list mi mp key ps title sn en = mp := by
  induction ps generalizing mp with
  | nil => rfl
  | cons p rest ih =>
      have hp : isMatch title sn en p = false := h p (by simp)
      simp only [update_program_list, hp, Bool.false_eq_true, if_false]
      exact ih mp (fun q hq => h q (List.mem_cons_of_mem p hq))

theorem truthyOptList_eq {α : Type} (o : Option (List α)) :
    truthyOptList o = (o.isSome && !(o.getD []).isEmpty) := by
  cases o <;> simp [truthyOptList]

theorem filter_isEmpty_eq {α : Type} (p : α → Bool) (l : List α) :
    (l.filter p).isEmpty = !l.any p := by
  induction l with
  | nil => rfl
  | cons a l ih =>
      by_cases h : p a <;> simp [List.filter_cons, h, ih]

theorem update_match_congr (mi : String → String) (mp : MatchDict) (key : String)
    (ps : List ProgramJson) (title : String) (sn en sn2 en2 : Option Int)
    (h : ∀ p, isMatch title sn en p = isMatch title sn2 en2 p) :
    update_program_list mi mp key ps title sn en =
      update_program_list mi mp key ps title sn2 en2 := by
  induction ps generalizing mp with
  | nil => rfl
  | cons p rest ih =>
      simp only [update_program_list, h p]
      exact ih _

/-- C7: for every program record, the manual-scheduling flag is true
iff the substring `-ch` occurs in the `ID` field or, when the `ID`
does not contain it and a `JobID` field is present, in the `JobID`
field. -/
theorem c7_manual_flag_iff (j : ProgramJson) :
    j.is_manual_recording = true ↔
      (strContains "-ch" j.ID = true ∨
        (strContains "-ch" j.ID = false ∧
          ∃ jid, j.JobID = some jid ∧ strContains "-ch" jid = true)) := by
  have h0 : strContains "-ch" "" = false := by decide
  cases hc : strContains "-ch" j.ID with
  | true => simp [ProgramJson.is_manual_recording, hc]
  | false =>
      cases hj : j.JobID with
      | none => simp [ProgramJson.is_manual_recording, hc, hj, truthyOptStr]
      | some jid =>
          by_cases hjid : jid = ""
          · subst hjid
            simp [ProgramJson.is_manual_recording, hc, hj, truthyOptStr, h0]
          · simp [ProgramJson.is_manual_recording, hc, hj, truthyOptStr, hjid]

/-- C10: a season filter of 0 selects exactly the same matches as no
season filter at all, and an episode filter of 0 exactly the same
matches as no episode filter (here proved for every season filter, in
particular nonzero ones): zero-valued filters are treated as absent. -/
theorem c10_zero_filter_is_absent (mi : String → String) (mp : MatchDict) (key : String)
    (ps : List ProgramJson) (title : String) (sn en : Option Int) :
    update_program_list mi mp key ps title (some 0) en =
      update_program_list mi mp key ps title none en ∧
    update_program_list mi mp key ps title sn (some 0) =
      update_program_list mi mp key ps title sn none := by
  have hs : ∀ p, isMatch title (some 0) en p = isMatch title none en p := by
    intro p
    simp [isMatch, truthyOptInt]
  have he : ∀ p, isMatch title sn (some 0) p = isMatch title sn none p := by
    intro p
    simp [isMatch, truthyOptInt]
  exact ⟨update_match_congr mi mp key ps title (some 0) en none en hs,
    update_match_congr mi mp key ps title sn (some 0) sn none he⟩

/-- C5 (amended): the media-info lookup result is used exactly when
the record has no truthy `FileID` and its `ID` contains no dash; in
every other case the resolved file name is `None` (the record itself
never supplies a file name). -/
theorem c5_file_name_resolution (m : String → String) (j : ProgramJson) :
    (performs_lookup j = true → get_file_name m j = some (m j.ID)) ∧
    (performs_lookup j = false → get_file_name m j = none) := by
  cases h1 : truthyOptStr j.FileID with
  | false =>
      cases h2 : strContains "-" j.ID with
      | false => simp [performs_lookup, get_file_name, h1, h2]
      | true => simp [performs_lookup, get_file_name, h1, h2]
  | true => simp [performs_lookup, get_file_name, h1]

/-- C5 counterexample: a record with no `FileID` field at all (so no
file name is already present in the record) for which the code still
performs no media-info lookup and resolves no file name, because its
`ID` carries a dash.  The result is `none` whatever the lookup oracle
would answer. -/
theorem c5_counterexample :
    claimed_lookup_needed jsonDash5 = true ∧
    jsonDash5.FileID = none ∧
    get_file_name o5 jsonDash5 = none ∧
    get_file_name (fun i => "other-" ++ i) jsonDash5 = none ∧
    get_file_name o5 jsonDash5 ≠ some (o5 jsonDash5.ID) := by
  refine ⟨rfl, rfl, by decide, by decide, by decide⟩

theorem c5_witness :
    get_file_name o5 jsonLib5 = some (o5 jsonLib5.ID) ∧ get_file_name o5 jsonFid5 = none :=
  ⟨(c5_file_name_resolution o5 jsonLib5).1 (by decide),
    (c5_file_name_resolution o5 jsonFid5).2 (by decide)⟩

/-- C1 (amended): for queries whose given season number, if any, is
nonzero, and whose given episode number, if any, is nonzero, the
matching test of `update_program_list` agrees exactly with the claimed
rule (title substring, equal season when given, equal episode when
also given, absence of a required field disqualifying).  For
zero-valued filters the original claim fails, see the counterexample. -/
theorem c1_match_characterization (title : String) (sn en : Option Int) (j : ProgramJson)
    (hs : ∀ s : Int, sn = some s → s ≠ 0) (he : ∀ e : Int, en = some e → e ≠ 0) :
    isMatch title sn en j = claimedMatch title sn en j := by
  cases hT : strContains title j.Airing.Title with
  | false => simp [isMatch, claimedMatch, hT]
  | true =>
      cases sn with
      | none =>
          cases en <;> simp [isMatch, claimedMatch, hT, truthyOptInt]
      | some s =>
          have hs0 : s ≠ 0 := hs s rfl
          have hts : truthyOptInt (some s) = true := by simp [truthyOptInt, hs0]
          cases hSN : j.Airing.SeasonNumber with
          | none =>
              simp [isMatch, claimedMatch, hT, hts, hSN, truthyOptInt]
              exact hs0
          | some ps =>
              by_cases hps : ps = s
              · subst hps
                cases en with
                | none => simp [isMatch, claimedMatch, hT, hts, hSN, truthyOptInt, hs0]
                | some e =>
                    have he0 : e ≠ 0 := he e rfl
                    have hte : truthyOptInt (some e) = true := by simp [truthyOptInt, he0]
                    cases hEN : j.Airing.EpisodeNumber with
                    | none =>
                        simp [isMatch, claimedMatch, hT, hts, hSN, hte, hEN, truthyOptInt, hs0]
                        exact he0
                    | some pe =>
                        by_cases hpe : pe = e
                        · subst hpe
                          simp [isMatch, claimedMatch, hT, hts, hSN, hte, hEN, truthyOptInt,
                            hs0, he0]
                        · have hbe : (e == pe) = false := beq_eq_false_iff_ne.mpr (Ne.symm hpe)
                          have hbe2 : (pe == e) = false := beq_eq_false_iff_ne.mpr hpe
                          have hd : decide (e = 0) = false := decide_eq_false he0
                          simp [isMatch, claimedMatch, hT, hts, hSN, hte, hEN, truthyOptInt,
                            hbe, hbe2, hd]
                          exact hs0
              · have hbs : (ps == s) = false := beq_eq_false_iff_ne.mpr hps
                have hbs2 : (s == ps) = false := beq_eq_false_iff_ne.mpr (Ne.symm hps)
                have hd : decide (s = 0) = false := decide_eq_false hs0
                simp [isMatch, claimedMatch, hT, hts, hSN, truthyOptInt, hbs, hbs2, hd]

/-- C1 counterexample: with season filter 0 the code matches on title
alone, so a record with season 5 is included although the claimed rule
(equal season whenever a season number is given) excludes it. -/
theorem c1_counterexample :
    isMatch "A" (some 0) none cexJson1 = true ∧
    claimedMatch "A" (some 0) none cexJson1 = false := by
  refine ⟨by decide, by decide⟩

theorem c1_witness :
    claimedMatch "Fri" (some 2) (some 3) wJson1 = true ∧
    isMatch "Fri" (some 2) (some 3) wJson1 = true :=
  ⟨by decide,
    (c1_match_characterization "Fri" (some 2) (some 3) wJson1
      (by intro s hh; injection hh with h2; omega)
      (by intro e hh; injection hh with h2; omega)).trans (by decide)⟩

theorem map_isEmpty {α β : Type} (f : α → β) (l : List α) :
    (l.map f).isEmpty = l.isEmpty := by
  cases l <;> rfl

theorem update_gate (mi : String → String) (mp : MatchDict) (key : String)
    (ps : List ProgramJson) (title : String) (sn en : Option Int)
    (h0 : dictGetOpt mp key = none) :
    truthyOptList (dictGetOpt (update_program_list mi mp key ps title sn en) key) =
      ps.any (fun p => isMatch title sn en p) := by
  rw [truthyOptList_eq, update_isSome_self, h0]
  have e2 := update_getD_self mi mp key ps title sn en
  simp only [dictGetD, h0, Option.getD_none] at e2
  rw [e2]
  simp [map_isEmpty, filter_isEmpty_eq]

theorem matching_getOpt_scheduled (mi : String → String) (jobs files : List ProgramJson)
    (title : String) (sn en : Option Int) :
    dictGetOpt (get_matching_programs mi jobs files title sn en) "scheduled" =
      dictGetOpt
        (update_program_list mi [] "scheduled" (get_scheduled_recordings jobs) title sn en)
        "scheduled" := by
  simp only [get_matching_programs, get_library_programs]
  exact update_getOpt_other mi _ "library" files title sn en "scheduled" (by decide)

theorem matching_getOpt_library_pre (mi : String → String) (jobs : List ProgramJson)
    (title : String) (sn en : Option Int) :
    dictGetOpt
      (update_program_list mi [] "scheduled" (get_scheduled_recordings jobs) title sn en)
      "library" = none := by
  rw [update_getOpt_other mi _ "scheduled" _ title sn en "library" (by decide)]
  rfl

theorem scheduled_matches_list (mi : String → String) (jobs files : List ProgramJson)
    (title : String) (sn en : Option Int) :
    dictGetD (get_matching_programs mi jobs files title sn en) "scheduled" [] =
      ((get_scheduled_recordings jobs).filter (fun p => isMatch title sn en p)).map
        (mkProgram mi) := by
  rw [dictGetD, matching_getOpt_scheduled]
  have e2 := update_getD_self mi [] "scheduled" (get_scheduled_recordings jobs) title sn en
  simp only [dictGetD] at e2
  rw [e2]
  rfl

/-- C6: the Scheduled recordings section is rendered iff some
unskipped job matches, and the Library programs section is rendered
iff some library file matches; a collection with zero matches never
produces its header (its key is then absent from the dictionary, so
its gate is falsy). -/
theorem c6_section_gates (mi : String → String) (jobs files : List ProgramJson)
    (title : String) (sn en : Option Int) :
    (renders_scheduled_section (get_matching_programs mi jobs files title sn en) = true ↔
      ∃ j ∈ jobs, j.Skipped = false ∧ isMatch title sn en j = true) ∧
    (renders_library_section (get_matching_programs mi jobs files title sn en) = true ↔
      ∃ f ∈ files, isMatch title sn en f = true) := by
  constructor
  · rw [renders_scheduled_section, matching_getOpt_scheduled,
      update_gate mi [] "scheduled" _ title sn en rfl]
    simp [List.any_eq_true, get_scheduled_recordings, List.mem_filter, Bool.not_eq_true',
      and_assoc]
  · rw [renders_library_section]
    simp only [get_matching_programs, get_library_programs]
    rw [update_gate mi _ "library" files title sn en
      (matching_getOpt_library_pre mi jobs title sn en)]
    simp [List.any_eq_true]

/-- C9: the scheduled collection that feeds the matching filter holds
exactly the unskipped jobs, in their original order (it is a sublist
of the jobs response), and a skipped job can never appear among the
programs of the scheduled section. -/
theorem c9_skipped_never_scheduled (jobs : List ProgramJson) (mi : String → String)
    (files : List ProgramJson) (title : String) (sn en : Option Int) (j : ProgramJson)
    (hskip : j.Skipped = true) :
    (∀ r, r ∈ get_scheduled_recordings jobs ↔ (r ∈ jobs ∧ r.Skipped = false)) ∧
    List.Sublist (get_scheduled_recordings jobs) jobs ∧
    (∀ P, P ∈ dictGetD (get_matching_programs mi jobs files title sn en) "scheduled" [] →
      P.program ≠ j) := by
  refine ⟨?_, ?_, ?_⟩
  · intro r
    simp [get_scheduled_recordings, List.mem_filter, Bool.not_eq_true']
  · exact List.filter_sublist jobs
  · intro P hP hcontra
    rw [scheduled_matches_list] at hP
    obtain ⟨j2, hj2, rfl⟩ := List.mem_map.mp hP
    have hmem0 : j2 ∈ get_scheduled_recordings jobs := (List.mem_filter.mp hj2).1
    simp only [get_scheduled_recordings] at hmem0
    have hns : (!j2.Skipped) = true := (List.mem_filter.mp hmem0).2
    have hj2j : j2 = j := hcontra
    rw [hj2j, hskip] at hns
    simp at hns

theorem c9_witness : (mkProgram mi9 jok9).program ≠ jskip9 :=
  (c9_skipped_never_scheduled jobs9 mi9 [] "New" none none jskip9 rfl).2.2
    (mkProgram mi9 jok9) (by decide)

/-- C4: when no unskipped job and no library file matches, the
matching step returns the empty dictionary, and the main block prints
the normal `no matches found.` message followed by an empty report
(no error path is taken: the result is a `some`). -/
theorem c4_no_match_is_normal (passes : String → Option String) (mi : String → String)
    (lt : String → String) (jobs files : List ProgramJson) (title : String)
    (sn en : Option Int)
    (hjobs : ∀ j ∈ jobs, j.Skipped = false → isMatch title sn en j = false)
    (hfiles : ∀ f ∈ files, isMatch title sn en f = false) :
    get_matching_programs mi jobs files title sn en = [] ∧
    main_report passes mi lt jobs files title sn en = some "no matches found.\n\n" := by
  have h1 : update_program_list mi [] "scheduled" (get_scheduled_recordings jobs)
      title sn en = [] := by
    apply update_no_match
    intro p hp
    simp only [get_scheduled_recordings] at hp
    have hm := List.mem_filter.mp hp
    exact hjobs p hm.1 (by simpa [Bool.not_eq_true'] using hm.2)
  have h2 : get_matching_programs mi jobs files title sn en = [] := by
    simp only [get_matching_programs, get_library_programs, h1]
    apply update_no_match
    intro p hp
    exact hfiles p hp
  refine ⟨h2, ?_⟩
  simp only [main_report, h2]
  rfl

theorem c4_witness :
    get_matching_programs mi4 jobs4 files4 "zzz" none none = [] ∧
    main_report passes4 mi4 lt4 jobs4 files4 "zzz" none none =
      some "no matches found.\n\n" :=
  c4_no_match_is_normal passes4 mi4 lt4 jobs4 files4 "zzz" none none
    (by decide) (by decide)

/-- C2: classification of a matched program follows the strict
precedence of the if/elif/else chain of `display_passes`: a program
carrying `ImportPath` renders the import line whatever the rules
mapping, the local-time oracle, its rule id or its manual marker; a
non-imported program with the manual marker renders the
manual-recording line whatever the rules mapping; only a program with
neither renders the rule-triggered line, consulting the rules mapping.
The three cases are mutually exclusive and cover every program, so
each program is classified exactly once. -/
theorem c2_classification_precedence (passes passes2 : String → Option String)
    (lt lt2 : String → String) (pr : Program) :
    (pr.is_imported = true →
      display_one_program passes lt pr = some (program_header pr ++ import_text pr) ∧
      display_one_program passes lt pr = display_one_program passes2 lt2 pr) ∧
    (pr.is_imported = false → pr.is_manual_recording = true →
      display_one_program passes lt pr =
        (manual_tail lt pr).map (fun tail => program_header pr ++ (manual_marker ++ tail)) ∧
      display_one_program passes lt pr = display_one_program passes2 lt pr) ∧
    (pr.is_imported = false → pr.is_manual_recording = false →
      display_one_program passes lt pr =
        some (program_header pr ++ (rule_marker passes pr ++ rule_tail lt pr))) := by
  refine ⟨fun hi => ?_, fun hi hm => ?_, fun hi hm => ?_⟩
  · exact ⟨by simp [display_one_program, hi], by simp [display_one_program, hi]⟩
  · exact ⟨by simp [display_one_program, hi, hm], by simp [display_one_program, hi, hm]⟩
  · simp [display_one_program, hi, hm]

theorem c2_witness :
    display_one_program passesA2 lt2 prImp2 =
      some (program_header prImp2 ++ import_text prImp2) ∧
    display_one_program passesA2 lt2 prMan2 =
      (manual_tail lt2 prMan2).map
        (fun tail => program_header prMan2 ++ (manual_marker ++ tail)) ∧
    display_one_program passesA2 lt2 prRule2 =
      some (program_header prRule2 ++ (rule_marker passesA2 prRule2 ++ rule_tail lt2 prRule2)) :=
  ⟨((c2_classification_precedence passesA2 passesB2 lt2 lt2 prImp2).1 (by decide)).1,
    ((c2_classification_precedence passesA2 passesB2 lt2 lt2 prMan2).2.1
      (by decide) (by decide)).1,
    (c2_classification_precedence passesA2 passesB2 lt2 lt2 prRule2).2.2
      (by decide) (by decide)⟩

/-- C3 (amended): for a matched program that is neither imported nor
manual, the rendered pass name is the placeholder `nothing found!`
when its rule identifier is absent from the rules mapping (also when
it has no rule identifier at all) and also when the mapping associates
an empty name with it; otherwise it is the (nonempty) name the mapping
associates with that identifier. -/
theorem c3_unknown_pass_placeholder (passes : String → Option String) (lt : String → String)
    (pr : Program) (pid : Option String) :
    (pr.is_imported = false → pr.is_manual_recording = false →
      display_one_program passes lt pr =
        some (program_header pr ++
          ("triggered by pass: \"" ++ rendered_pass_name passes pr.pass_id ++ "\"\n" ++
            rule_tail lt pr))) ∧
    (lookup_pass passes pid = none → rendered_pass_name passes pid = "nothing found!") ∧
    (lookup_pass passes pid = some "" → rendered_pass_name passes pid = "nothing found!") ∧
    (∀ n, lookup_pass passes pid = some n → n ≠ "" → rendered_pass_name passes pid = n) := by
  refine ⟨fun hi hm => ?_, fun h => ?_, fun h => ?_, fun n h hn => ?_⟩
  · simp [display_one_program, hi, hm, rule_marker, String.append_assoc]
  · simp [rendered_pass_name, h, truthyOptStr]
  · simp [rendered_pass_name, h, truthyOptStr]
  · simp [rendered_pass_name, h, truthyOptStr, hn]

/-- C3 counterexample: the rules mapping associates the empty name
with the rule id of a matched, non-imported, non-manual program; the
claim says the empty name is rendered, but the code renders the
placeholder `nothing found!` (Python truthiness swallows the empty
name). -/
theorem c3_counterexample :
    passes3 "r1" = some "" ∧
    prRule3.pass_id = some "r1" ∧
    prRule3.is_imported = false ∧
    prRule3.is_manual_recording = false ∧
    rendered_pass_name passes3 prRule3.pass_id = "nothing found!" ∧
    rendered_pass_name passes3 prRule3.pass_id ≠ "" ∧
    display_one_program passes3 lt3 prRule3 =
      some (program_header prRule3 ++
        ("triggered by pass: \"nothing found!\"\n" ++ rule_tail lt3 prRule3)) := by
  refine ⟨by decide, by decide, by decide, by decide, by decide, by decide, by decide⟩

theorem c3_witness :
    rendered_pass_name passesW3 (some "ra") = "Kids Pass" ∧
    rendered_pass_name passesW3 (some "rc") = "nothing found!" ∧
    rendered_pass_name passesW3 (some "rb") = "nothing found!" ∧
    rendered_pass_name passesW3 none = "nothing found!" ∧
    display_one_program passesW3 lt3 prRule3 =
      some (program_header prRule3 ++
        ("triggered by pass: \"" ++ rendered_pass_name passesW3 prRule3.pass_id ++ "\"\n" ++
          rule_tail lt3 prRule3)) :=
  ⟨(c3_unknown_pass_placeholder passesW3 lt3 prRule3 (some "ra")).2.2.2 "Kids Pass"
      (by decide) (by decide),
    (c3_unknown_pass_placeholder passesW3 lt3 prRule3 (some "rc")).2.1 (by decide),
    (c3_unknown_pass_placeholder passesW3 lt3 prRule3 (some "rb")).2.2.1 (by decide),
    (c3_unknown_pass_placeholder passesW3 lt3 prRule3 none).2.1 (by decide),
    (c3_unknown_pass_placeholder passesW3 lt3 prRule3 none).1 (by decide) (by decide)⟩

/-- C8 (amended): converting the UTC timestamp `2023-06-24T15:00Z`
yields the long-format local string with the weekday and month names
of the local civil date; for every local UTC offset under which the
local time still falls on June 24 (all offsets from -900 to +539
minutes, which covers all real western offsets and in particular EDT
at -240), the output starts with `Saturday, June 24, 2023` and ends
with the 12-hour local time of day and the timezone name.  For larger
positive offsets (UTC+9 and beyond) the local date is Sunday, June 25,
so the original claim that the result is always a Saturday fails; see
the counterexample. -/
theorem c8_local_time_rendering (ofs : Int) (zone : String)
    (h1 : 0 ≤ 900 + ofs) (h2 : 900 + ofs < 1440) :
    convert_utc_time_to_local_time "2023-06-24T15:00Z" ofs zone =
      some ("Saturday, June 24, 2023 " ++ time_of_day_string (900 + ofs).toNat ++ " " ++
        zone) := by
  have hp : strptime_utc "2023-06-24T15:00Z" = some ⟨2023, 6, 24, 15, 0⟩ := by decide
  rw [convert_utc_time_to_local_time, hp]
  simp only [Option.map_some']
  have hm : utcTotalMinutes ⟨2023, 6, 24, 15, 0⟩ = 28126980 := by decide
  simp only [local_render, hm]
  have hdiv : (28126980 + ofs) / 1440 = 19532 := by omega
  have hmod : (28126980 + ofs) % 1440 = 900 + ofs := by omega
  rw [hdiv, hmod]
  have hcd : civilFromDays 19532 = ⟨2023, 6, 24⟩ := by decide
  have hwd : (((19532 : Int) + 4) % 7).toNat = 6 := by decide
  rw [hcd, hwd]
  rfl

theorem c8_witness :
    convert_utc_time_to_local_time "2023-06-24T15:00Z" (-240) "EDT" =
      some "Saturday, June 24, 2023 11:00:00 AM EDT" :=
  (c8_local_time_rendering (-240) "EDT" (by decide) (by decide)).trans (by decide)

/-- C8 counterexample: under the real timezone UTC+9 (JST), the same
timestamp converts to a Sunday, June 25 local time, so the conversion
does not always yield a Saturday in June 2023 as claimed; the weekday
and month names are correct for the local date, not for the UTC
date. -/
theorem c8_counterexample :
    convert_utc_time_to_local_time "2023-06-24T15:00Z" 540 "JST" =
      some "Sunday, June 25, 2023 12:00:00 AM JST" ∧
    strContains "Saturday" "Sunday, June 25, 2023 12:00:00 AM JST" = false ∧
    strContains "June 24" "Sunday, June 25, 2023 12:00:00 AM JST" = false := by
  refine ⟨by decide, by decide, by decide⟩
